import Mathlib

/-!
Shallow embedding of the metrics aggregation and reporting engine of
jwt-pizza-service (`src/metrics.js`).  JS numbers that are used as
integers (counters, millisecond timestamps, latency samples) are
modelled as `Nat`/`Int`; revenue and the system-gauge percentages,
which are genuine fractional numbers, are modelled as `ℚ`.  A JS
object used as a string-keyed record is modelled as an association
list in insertion order; a JS `Map` likewise.  Fallible control flow
(exceptions thrown and caught across `sendMetrics`/`sendToGrafana`)
is modelled with `Except`.
-/

namespace JwtPizza

/-- Lookup of `obj[key]` with the `|| 0` default used throughout `metrics.js`:
the value of the first entry with the key, `0` when absent. -/
def lookupCount : List (String × Nat) → String → Nat
  | [], _ => 0
  | p :: t, k => if p.1 = k then p.2 else lookupCount t k

/-- JS property increment `obj[key] = (obj[key] || 0) + 1`: update the entry
in place when the key is present, otherwise append a new entry (insertion
order of a JS object). -/
def bump : List (String × Nat) → String → List (String × Nat)
  | [], k => [(k, 1)]
  | p :: t, k => if p.1 = k then (p.1, p.2 + 1) :: t else p :: bump t k

/-- JS `Map.set(uid, ts)`: overwrite the entry when the key is present,
otherwise append (JS `Map` preserves insertion order). -/
def mapSet : List (Nat × Int) → Nat → Int → List (Nat × Int)
  | [], uid, ts => [(uid, ts)]
  | p :: t, uid, ts => if p.1 = uid then (uid, ts) :: t else p :: mapSet t uid ts

/-- The `httpRequestCounts` object literal from the `Metrics` constructor
(and from `resetPeriodMetrics`). -/
def initialHttpCounts : List (String × Nat) :=
  [("total", 0), ("GET", 0), ("POST", 0), ("PUT", 0), ("DELETE", 0)]

/-- The mutable state owned by the `Metrics` singleton: `httpRequestCounts`,
`authAttempts` (flattened into its two fields), `activeUsers`,
`pizzaMetrics` (flattened), and `latencyMetrics` (flattened). -/
structure MetricsState where
  httpRequestCounts : List (String × Nat)
  authSuccessful : Nat
  authFailed : Nat
  activeUsers : List (Nat × Int)
  pizzaSold : Nat
  pizzaFailures : Nat
  pizzaRevenue : ℚ
  serviceLatencies : List Nat
  pizzaLatencies : List Nat
  deriving DecidableEq

/-- The state built by the `Metrics` constructor. -/
def freshMetrics : MetricsState :=
  { httpRequestCounts := initialHttpCounts
    authSuccessful := 0
    authFailed := 0
    activeUsers := []
    pizzaSold := 0
    pizzaFailures := 0
    pizzaRevenue := 0
    serviceLatencies := []
    pizzaLatencies := [] }

/-- The synchronous part of the `requestTracker` middleware:
`total++`, then `httpRequestCounts[req.method] = (… || 0) + 1`, then
`activeUsers.set(req.user.id, Date.now())` when an authenticated user is
present. -/
def requestTrackerCount (s : MetricsState) (method : String) (user : Option Nat)
    (now : Int) : MetricsState :=
  { s with
    httpRequestCounts := bump (bump s.httpRequestCounts "total") method
    activeUsers :=
      match user with
      | some uid => mapSet s.activeUsers uid now
      | none => s.activeUsers }

/-- Append to a latency array with the hard-cap eviction used in both
`requestTracker`'s finish handler and `pizzaPurchase`:
`push(x); if (length > 100) shift()`. -/
def pushCapped (l : List Nat) (x : Nat) : List Nat :=
  let l2 := l ++ [x]
  if 100 < l2.length then l2.tail else l2

/-- The `res.on('finish', …)` handler of `requestTracker`: record the
observed service latency. -/
def requestTrackerFinish (s : MetricsState) (latency : Nat) : MetricsState :=
  { s with serviceLatencies := pushCapped s.serviceLatencies latency }

/-- `recordAuthAttempt(success, userId)`. -/
def recordAuthAttempt (s : MetricsState) (success : Bool) (userId : Option Nat)
    (now : Int) : MetricsState :=
  if success then
    { s with
      authSuccessful := s.authSuccessful + 1
      activeUsers :=
        match userId with
        | some uid => mapSet s.activeUsers uid now
        | none => s.activeUsers }
  else
    { s with authFailed := s.authFailed + 1 }

/-- `pizzaPurchase(success, latency, revenue)`. -/
def pizzaPurchase (s : MetricsState) (success : Bool) (latency : Nat)
    (revenue : ℚ) : MetricsState :=
  let s1 :=
    if success then
      { s with pizzaSold := s.pizzaSold + 1, pizzaRevenue := s.pizzaRevenue + revenue }
    else
      { s with pizzaFailures := s.pizzaFailures + 1 }
  { s1 with pizzaLatencies := pushCapped s1.pizzaLatencies latency }

/-- `getCpuUsagePercentage()`: `min(loadavg / cpuCount * 100, 100)`,
with the host's 1-minute load average and logical CPU count as inputs. -/
def getCpuUsagePercentage (loadavg : ℚ) (cpuCount : Nat) : ℚ :=
  min (loadavg / cpuCount * 100) 100

/-- `getMemoryUsagePercentage()`: `((total - free) / total * 100).toFixed(2)`
parsed back to a number, i.e. the percentage rounded to two decimals. -/
def getMemoryUsagePercentage (totalMemory freeMemory : ℚ) : ℚ :=
  (round ((totalMemory - freeMemory) / totalMemory * 100 * 100) : ℤ) / 100

/-- `getAverageLatency(latencies)`: `0` for an empty array, otherwise
`Math.round(sum / length)`.  `Math.round` is round-half-up, so on the
integer samples this is `⌊(2·sum + length) / (2·length)⌋`. -/
def getAverageLatency (latencies : List Nat) : Nat :=
  if latencies.length = 0 then 0
  else (2 * latencies.sum + latencies.length) / (2 * latencies.length)

/-- The expiry sweep at the top of `sendMetrics`: delete every active user
whose `lastActivityTime < now - 5 * 60 * 1000`. -/
def sweepExpired (users : List (Nat × Int)) (now : Int) : List (Nat × Int) :=
  users.filter fun p => !decide (p.2 < now - 5 * 60 * 1000)

/-- The snapshot object literal built inside `sendMetrics` (field order as in
the source).  `source` is a string and `timestamp` is the clock reading
`now`; every other field is numeric. -/
structure MetricsSnapshot where
  source : String
  timestamp : Int
  http_requests_total : ℚ
  http_requests_get : ℚ
  http_requests_post : ℚ
  http_requests_put : ℚ
  http_requests_delete : ℚ
  auth_attempts_successful : ℚ
  auth_attempts_failed : ℚ
  active_users : ℚ
  cpu_percent : ℚ
  memory_percent : ℚ
  pizzas_sold : ℚ
  pizza_failures : ℚ
  pizza_revenue : ℚ
  service_latency_avg : ℚ
  pizza_latency_avg : ℚ
  deriving DecidableEq

/-- The snapshot-building phase of `sendMetrics`: sweep expired users, then
build the metrics object from the current state, the clock `now`, and the
host facts consumed by `getCpuUsagePercentage`/`getMemoryUsagePercentage`.
Returns the post-sweep state together with the snapshot. -/
def sendMetricsSnapshot (s : MetricsState) (src : String) (now : Int)
    (loadavg : ℚ) (cpuCount : Nat) (totalMemory freeMemory : ℚ) :
    MetricsState × MetricsSnapshot :=
  let users := sweepExpired s.activeUsers now
  ({ s with activeUsers := users },
   { source := src
     timestamp := now
     http_requests_total := lookupCount s.httpRequestCounts "total"
     http_requests_get := lookupCount s.httpRequestCounts "GET"
     http_requests_post := lookupCount s.httpRequestCounts "POST"
     http_requests_put := lookupCount s.httpRequestCounts "PUT"
     http_requests_delete := lookupCount s.httpRequestCounts "DELETE"
     auth_attempts_successful := s.authSuccessful
     auth_attempts_failed := s.authFailed
     active_users := users.length
     cpu_percent := getCpuUsagePercentage loadavg cpuCount
     memory_percent := getMemoryUsagePercentage totalMemory freeMemory
     pizzas_sold := s.pizzaSold
     pizza_failures := s.pizzaFailures
     pizza_revenue := s.pizzaRevenue
     service_latency_avg := getAverageLatency s.serviceLatencies
     pizza_latency_avg := getAverageLatency s.pizzaLatencies })

/-- `resetPeriodMetrics()`: fresh counter objects for HTTP requests, auth
attempts and pizza metrics; each latency array trimmed with
`if (length > 50) slice(-50)`; `activeUsers` deliberately untouched. -/
def resetPeriodMetrics (s : MetricsState) : MetricsState :=
  { s with
    httpRequestCounts := initialHttpCounts
    authSuccessful := 0
    authFailed := 0
    pizzaSold := 0
    pizzaFailures := 0
    pizzaRevenue := 0
    serviceLatencies :=
      if 50 < s.serviceLatencies.length then
        s.serviceLatencies.drop (s.serviceLatencies.length - 50)
      else s.serviceLatencies
    pizzaLatencies :=
      if 50 < s.pizzaLatencies.length then
        s.pizzaLatencies.drop (s.pizzaLatencies.length - 50)
      else s.pizzaLatencies }

/-- Outcome of the HTTPS POST to the collector, as observed by
`sendToGrafana`: a 2xx response, a non-2xx response, or a thrown
transport error. -/
inductive DeliveryResult where
  | success : DeliveryResult
  | httpError (status : Nat) : DeliveryResult
  | transportError : DeliveryResult
  deriving DecidableEq

/-- One OTLP gauge data point (`{attributes: [source], asDouble, timeUnixNano}`). -/
structure DataPoint where
  sourceAttr : String
  asDouble : ℚ
  timeUnixNano : Int
  deriving DecidableEq

/-- One named gauge metric of the OTLP payload. -/
structure GaugeMetric where
  name : String
  description : String
  unit : String
  dataPoints : List DataPoint
  deriving DecidableEq

/-- The OTLP payload built by `buildOtelMetrics`: resource attributes
(`service.name` = snapshot source, `service.version` fixed), one scope,
and the gauge metrics list. -/
structure OtelPayload where
  serviceName : String
  serviceVersion : String
  scopeName : String
  scopeVersion : String
  metrics : List GaugeMetric
  deriving DecidableEq

/-- Substring test, modelling JS `String.prototype.includes`. -/
def strContains (s sub : String) : Bool :=
  (List.range (s.length + 1)).any fun i =>
    decide ((s.toList.drop i).take sub.length = sub.toList)

/-- `getMetricUnit(metricName)` from the source, branch for branch. -/
def getMetricUnit (metricName : String) : String :=
  if strContains metricName "percent" then "%"
  else if strContains metricName "latency" then "ms"
  else if strContains metricName "revenue" then "USD"
  else if strContains metricName "requests" || strContains metricName "attempts"
      || strContains metricName "users" || strContains metricName "pizzas" then "1"
  else "1"

/-- Modelled from the spec: the unit naming convention as worded in the
spec (name containing "percent" → `%`, "latency" → `ms`, "revenue" →
currency unit, otherwise dimensionless `1`), kept separate from
`getMetricUnit` so the two can be compared. -/
def specMetricUnit (metricName : String) : String :=
  if strContains metricName "percent" then "%"
  else if strContains metricName "latency" then "ms"
  else if strContains metricName "revenue" then "USD"
  else "1"

/-- `Object.entries` of the snapshot restricted to its numeric fields other
than `timestamp` (the filter in `buildOtelMetrics` drops `source` and
`timestamp`; everything else is a number), in the object's insertion
order. -/
def snapshotEntries (m : MetricsSnapshot) : List (String × ℚ) :=
  [("http_requests_total", m.http_requests_total),
   ("http_requests_get", m.http_requests_get),
   ("http_requests_post", m.http_requests_post),
   ("http_requests_put", m.http_requests_put),
   ("http_requests_delete", m.http_requests_delete),
   ("auth_attempts_successful", m.auth_attempts_successful),
   ("auth_attempts_failed", m.auth_attempts_failed),
   ("active_users", m.active_users),
   ("cpu_percent", m.cpu_percent),
   ("memory_percent", m.memory_percent),
   ("pizzas_sold", m.pizzas_sold),
   ("pizza_failures", m.pizza_failures),
   ("pizza_revenue", m.pizza_revenue),
   ("service_latency_avg", m.service_latency_avg),
   ("pizza_latency_avg", m.pizza_latency_avg)]

/-- `buildOtelMetrics(metrics)`.  The data-point timestamp is
`Date.now() * 1000000`, a FRESH clock reading taken when the encoder runs
(`encodeNowMs`), not the snapshot's `timestamp` field. -/
def buildOtelMetrics (metrics : MetricsSnapshot) (encodeNowMs : Int) : OtelPayload :=
  let timestamp := encodeNowMs * 1000000
  { serviceName := metrics.source
    serviceVersion := "1.0.0"
    scopeName := "jwt-pizza-service-metrics"
    scopeVersion := "1.0.0"
    metrics :=
      (snapshotEntries metrics).map fun p =>
        { name := p.1
          description := p.1 ++ " metric from JWT Pizza Service"
          unit := getMetricUnit p.1
          dataPoints :=
            [{ sourceAttr := metrics.source
               asDouble := p.2
               timeUnixNano := timestamp }] } }

/-- `sendToGrafana(metrics)`: its body is one `try`/`catch`.  Building the
payload and logging cannot throw; a non-2xx response is only logged; a
transport error thrown by `fetch` is caught by the `catch` and logged.
So the function completes normally (`Except.ok`) for every delivery
outcome — it never rethrows to its caller. -/
def sendToGrafana (metrics : MetricsSnapshot) (encodeNowMs : Int)
    (result : DeliveryResult) : Except String OtelPayload :=
  let payload := buildOtelMetrics metrics encodeNowMs
  match result with
  | .success => .ok payload
  | .httpError _ => .ok payload
  | .transportError => .ok payload

/-- `sendMetrics()`: sweep + snapshot, `await sendToGrafana(metrics)`, then
`resetPeriodMetrics()`.  The outer `try`/`catch` would skip the reset if
`sendToGrafana` rejected, which is modelled by the `Except.error` branch. -/
def sendMetrics (s : MetricsState) (src : String) (now : Int)
    (loadavg : ℚ) (cpuCount : Nat) (totalMemory freeMemory : ℚ)
    (encodeNowMs : Int) (result : DeliveryResult) : MetricsState :=
  let sp := sendMetricsSnapshot s src now loadavg cpuCount totalMemory freeMemory
  match sendToGrafana sp.2 encodeNowMs result with
  | .ok _ => resetPeriodMetrics sp.1
  | .error _ => sp.1

/-- A finite sequence of requests hitting the counting part of
`requestTracker` (no authenticated user, so only the counters move). -/
def recordRequests (s : MetricsState) (ms : List String) : MetricsState :=
  ms.foldl (fun st m => requestTrackerCount st m none 0) s

/-- A concrete snapshot used to instantiate encoder theorems. -/
def sampleSnapshot : MetricsSnapshot :=
  { source := "test"
    timestamp := 1000
    http_requests_total := 4
    http_requests_get := 3
    http_requests_post := 1
    http_requests_put := 0
    http_requests_delete := 0
    auth_attempts_successful := 2
    auth_attempts_failed := 1
    active_users := 1
    cpu_percent := 50
    memory_percent := 40
    pizzas_sold := 1
    pizza_failures := 1
    pizza_revenue := 9.99
    service_latency_avg := 12
    pizza_latency_avg := 100 }

/-! Helper lemmas about the counter object. -/

theorem lookupCount_bump_self (c : List (String × Nat)) (k : String) :
    lookupCount (bump c k) k = lookupCount c k + 1 := by
  induction c with
  | nil => simp [bump, lookupCount]
  | cons p t ih =>
    by_cases h : p.1 = k
    · simp [bump, lookupCount, h]
    · simp [bump, lookupCount, h, ih]

theorem lookupCount_bump_ne (c : List (String × Nat)) (k k2 : String)
    (h : k2 ≠ k) : lookupCount (bump c k) k2 = lookupCount c k2 := by
  induction c with
  | nil => simp [bump, lookupCount, Ne.symm h]
  | cons p t ih =>
    by_cases hp : p.1 = k
    · simp [bump, lookupCount, hp, Ne.symm h]
    · by_cases hq : p.1 = k2 <;> simp [bump, lookupCount, hp, hq, ih, h]

theorem lookupCount_initial (k : String) : lookupCount initialHttpCounts k = 0 := by
  simp only [initialHttpCounts, lookupCount]
  split_ifs <;> rfl

theorem recordRequests_counts (ms : List String) (s : MetricsState)
    (h : ∀ m ∈ ms, m ≠ "total") :
    lookupCount (recordRequests s ms).httpRequestCounts "total"
      = lookupCount s.httpRequestCounts "total" + ms.length ∧
    ∀ k, k ≠ "total" →
      lookupCount (recordRequests s ms).httpRequestCounts k
        = lookupCount s.httpRequestCounts k + ms.count k := by
  induction ms generalizing s with
  | nil => simp [recordRequests]
  | cons m t ih =>
    have hm : m ≠ "total" := h m (by simp)
    have ht : ∀ x ∈ t, x ≠ "total" := fun x hx => h x (by simp [hx])
    have hstep : recordRequests s (m :: t)
        = recordRequests (requestTrackerCount s m none 0) t := rfl
    obtain ⟨ih1, ih2⟩ := ih (requestTrackerCount s m none 0) ht
    have hbase : (requestTrackerCount s m none 0).httpRequestCounts
        = bump (bump s.httpRequestCounts "total") m := rfl
    constructor
    · rw [hstep, ih1, hbase, lookupCount_bump_ne _ _ _ (Ne.symm hm),
        lookupCount_bump_self]
      simp; omega
    · intro k hk
      rw [hstep, ih2 k hk, hbase]
      by_cases hkm : k = m
      · subst hkm
        rw [lookupCount_bump_self, lookupCount_bump_ne _ _ _ hk]
        simp [List.count_cons]; omega
      · rw [lookupCount_bump_ne _ _ _ hkm, lookupCount_bump_ne _ _ _ hk]
        simp [List.count_cons, hkm]

theorem pushCapped_length (l : List Nat) (x : Nat) :
    (pushCapped l x).length = if 100 < l.length + 1 then l.length else l.length + 1 := by
  unfold pushCapped
  by_cases h : 100 < l.length + 1
  · rw [if_pos (by simpa using h), if_pos h, List.length_tail]
    simp
  · rw [if_neg (by simpa using h), if_neg h]
    simp

/-! Claim theorems. -/

/-- C2: starting from the fresh aggregator, a sequence of `requestTracker`
invocations leaves `total` equal to the number of calls and each
per-method counter equal to the number of calls with that method; unknown
methods are tolerated (they get an own bucket) and still increment
`total`.  The hypothesis excludes the literal key `"total"` as a method
name, which no HTTP request can carry. -/
theorem requestCounter_correct (ms : List String) (h : ∀ m ∈ ms, m ≠ "total") :
    lookupCount (recordRequests freshMetrics ms).httpRequestCounts "total" = ms.length ∧
    ∀ k, k ≠ "total" →
      lookupCount (recordRequests freshMetrics ms).httpRequestCounts k = ms.count k := by
  obtain ⟨h1, h2⟩ := recordRequests_counts ms freshMetrics h
  have hf : freshMetrics.httpRequestCounts = initialHttpCounts := rfl
  refine ⟨?_, fun k hk => ?_⟩
  · rw [h1, hf, lookupCount_initial]
    omega
  · rw [h2 k hk, hf, lookupCount_initial]
    omega

/-- Witness for C2 at a concrete call sequence containing the unknown
method `"PATCH"`. -/
theorem requestCounter_correct_witness :
    lookupCount (recordRequests freshMetrics
        ["GET", "GET", "POST", "PATCH"]).httpRequestCounts "total"
      = (["GET", "GET", "POST", "PATCH"] : List String).length ∧
    lookupCount (recordRequests freshMetrics
        ["GET", "GET", "POST", "PATCH"]).httpRequestCounts "GET"
      = (["GET", "GET", "POST", "PATCH"] : List String).count "GET" :=
  ⟨(requestCounter_correct ["GET", "GET", "POST", "PATCH"] (by decide)).1,
   (requestCounter_correct ["GET", "GET", "POST", "PATCH"] (by decide)).2 "GET" (by decide)⟩

/-- C3: the latency windows never exceed 100 entries between recordings:
from any state within the cap, any sequence of appends (in particular 150
of them from the empty window) stays within the cap; an append at the cap
drops the oldest entry; and both the service and the pizza recording
operations append through this very operation. -/
theorem sampleWindow_hard_cap (start : List Nat) (xs : List Nat)
    (h : start.length ≤ 100) :
    (xs.foldl pushCapped start).length ≤ 100 ∧
    (∀ l : List Nat, l.length = 100 → ∀ x, pushCapped l x = l.tail ++ [x]) ∧
    (∀ s lat, (requestTrackerFinish s lat).serviceLatencies
        = pushCapped s.serviceLatencies lat) ∧
    (∀ s b lat r, (pizzaPurchase s b lat r).pizzaLatencies
        = pushCapped s.pizzaLatencies lat) := by
  refine ⟨?_, ?_, fun s lat => rfl, fun s b lat r => by cases b <;> rfl⟩
  · induction xs generalizing start with
    | nil => simpa using h
    | cons x t ih =>
      refine ih (pushCapped start x) ?_
      rw [pushCapped_length]
      split_ifs <;> omega
  · intro l hl x
    cases l with
    | nil => simp at hl
    | cons a t =>
      simp only [List.length_cons] at hl
      have ht : t.length = 99 := by omega
      simp [pushCapped, ht]

/-- Witness for C3: 150 appends into an initially empty window. -/
theorem sampleWindow_hard_cap_witness :
    ((List.replicate 150 7).foldl pushCapped ([] : List Nat)).length ≤ 100 :=
  (sampleWindow_hard_cap [] (List.replicate 150 7) (by decide)).1

/-- C4: `getAverageLatency` of the empty list is exactly `0`, and on a
nonempty list it is within `1/2` of the exact arithmetic mean, i.e. the
mean rounded to the nearest integer (halves rounding up, as `Math.round`
does). -/
theorem getAverageLatency_correct (l : List Nat) :
    getAverageLatency [] = 0 ∧
    (l ≠ [] →
      |(getAverageLatency l : ℚ) - (l.sum : ℚ) / (l.length : ℚ)| ≤ 1 / 2) := by
  refine ⟨rfl, fun hl => ?_⟩
  have hL0 : 0 < l.length := List.length_pos.mpr hl
  have hd := Nat.div_add_mod (2 * l.sum + l.length) (2 * l.length)
  have hm : (2 * l.sum + l.length) % (2 * l.length) < 2 * l.length :=
    Nat.mod_lt _ (by omega)
  have h1 : 2 * l.length * ((2 * l.sum + l.length) / (2 * l.length))
      ≤ 2 * l.sum + l.length := by omega
  have h2 : 2 * l.sum + l.length
      < 2 * l.length * ((2 * l.sum + l.length) / (2 * l.length)) + 2 * l.length := by
    omega
  have hgA : getAverageLatency l = (2 * l.sum + l.length) / (2 * l.length) := by
    simp [getAverageLatency, hL0.ne']
  rw [hgA]
  have hLq : (0 : ℚ) < (l.length : ℚ) := by exact_mod_cast hL0
  have e : ((((2 * l.sum + l.length) / (2 * l.length) : ℕ)) : ℚ)
        - (l.sum : ℚ) / (l.length : ℚ)
      = ((((2 * l.sum + l.length) / (2 * l.length) : ℕ) : ℚ) * (l.length : ℚ)
        - (l.sum : ℚ)) / (l.length : ℚ) := by
    field_simp
  rw [e, abs_div, abs_of_pos hLq, div_le_iff₀ hLq]
  have c1 : (2 : ℚ) * (l.length : ℚ)
        * (((2 * l.sum + l.length) / (2 * l.length) : ℕ) : ℚ)
      ≤ 2 * (l.sum : ℚ) + (l.length : ℚ) := by exact_mod_cast h1
  have c2 : (2 : ℚ) * (l.sum : ℚ) + (l.length : ℚ)
      < 2 * (l.length : ℚ)
          * (((2 * l.sum + l.length) / (2 * l.length) : ℕ) : ℚ)
        + 2 * (l.length : ℚ) := by exact_mod_cast h2
  rw [abs_le]
  constructor <;> linarith

/-- Witness for C4 at the list `[120, 80]`, whose average is `100`. -/
theorem getAverageLatency_witness :
    |(getAverageLatency [120, 80] : ℚ)
        - ((([120, 80] : List Nat).sum : ℚ)) / ((([120, 80] : List Nat).length : ℚ))|
      ≤ 1 / 2 :=
  (getAverageLatency_correct [120, 80]).2 (by decide)

/-- C5: after `resetPeriodMetrics` every counter of the HTTP, auth and
pizza groups (revenue included) is `0`, each latency window holds exactly
its most recent `min(length, 50)` entries, and the active-user registry
is unchanged, entries and timestamps alike. -/
theorem resetPeriod_correct (s : MetricsState) :
    (∀ k, lookupCount (resetPeriodMetrics s).httpRequestCounts k = 0) ∧
    (resetPeriodMetrics s).authSuccessful = 0 ∧
    (resetPeriodMetrics s).authFailed = 0 ∧
    (resetPeriodMetrics s).pizzaSold = 0 ∧
    (resetPeriodMetrics s).pizzaFailures = 0 ∧
    (resetPeriodMetrics s).pizzaRevenue = 0 ∧
    (resetPeriodMetrics s).serviceLatencies
      = s.serviceLatencies.drop (s.serviceLatencies.length - 50) ∧
    (resetPeriodMetrics s).pizzaLatencies
      = s.pizzaLatencies.drop (s.pizzaLatencies.length - 50) ∧
    (resetPeriodMetrics s).serviceLatencies.length = min s.serviceLatencies.length 50 ∧
    (resetPeriodMetrics s).pizzaLatencies.length = min s.pizzaLatencies.length 50 ∧
    (resetPeriodMetrics s).activeUsers = s.activeUsers := by
  have hserv : (resetPeriodMetrics s).serviceLatencies
      = s.serviceLatencies.drop (s.serviceLatencies.length - 50) := by
    show (if 50 < s.serviceLatencies.length then
        s.serviceLatencies.drop (s.serviceLatencies.length - 50)
      else s.serviceLatencies) = _
    split_ifs with h
    · rfl
    · rw [Nat.sub_eq_zero_of_le (by omega), List.drop_zero]
  have hpz : (resetPeriodMetrics s).pizzaLatencies
      = s.pizzaLatencies.drop (s.pizzaLatencies.length - 50) := by
    show (if 50 < s.pizzaLatencies.length then
        s.pizzaLatencies.drop (s.pizzaLatencies.length - 50)
      else s.pizzaLatencies) = _
    split_ifs with h
    · rfl
    · rw [Nat.sub_eq_zero_of_le (by omega), List.drop_zero]
  refine ⟨fun k => lookupCount_initial k, rfl, rfl, rfl, rfl, rfl, hserv, hpz, ?_, ?_, rfl⟩
  · rw [hserv, List.length_drop]
    omega
  · rw [hpz, List.length_drop]
    omega

/-- C6: the sweep at the head of `sendMetrics` removes exactly the active
users whose age `now - lastActivity` exceeds five minutes (an entry one
unit inside the boundary survives), and the state returned by the
snapshot phase carries exactly the swept registry — expiry happens in no
other operation. -/
theorem sweepExpired_correct (users : List (Nat × Int)) (now : Int) (u : Nat) (t : Int)
    (s : MetricsState) (src : String) (loadavg : ℚ) (cpuCount : Nat) (tm fm : ℚ) :
    ((u, t) ∈ sweepExpired users now ↔
      (u, t) ∈ users ∧ ¬ (5 * 60 * 1000 < now - t)) ∧
    (now - t = 5 * 60 * 1000 - 1 → (u, t) ∈ users → (u, t) ∈ sweepExpired users now) ∧
    (sendMetricsSnapshot s src now loadavg cpuCount tm fm).1.activeUsers
      = sweepExpired s.activeUsers now := by
  have hiff : (u, t) ∈ sweepExpired users now ↔
      (u, t) ∈ users ∧ ¬ (5 * 60 * 1000 < now - t) := by
    rw [sweepExpired, List.mem_filter]
    simp only [Bool.not_eq_eq_eq_not, Bool.not_true, decide_eq_false_iff_not]
    constructor <;> rintro ⟨h1, h2⟩ <;> exact ⟨h1, by omega⟩
  refine ⟨hiff, fun hb hmem => ?_, rfl⟩
  exact hiff.mpr ⟨hmem, by omega⟩

/-- Witness for C6: with `now = 300099`, the entry stamped `100` has age
`299999`, one unit inside the five-minute boundary, and survives the sweep. -/
theorem sweepExpired_witness :
    (1, (100 : Int)) ∈ sweepExpired [(1, (100 : Int))] 300099 :=
  (sweepExpired_correct [(1, 100)] 300099 1 100 freshMetrics "src" 0 1 1 1).2.1
    (by decide) (by decide)

/-- C7: `pizzaPurchase` on success increments `sold` and adds the revenue,
leaving `failures` alone; on failure increments `failures`, leaving `sold`
and `revenue` alone; always appends the latency to the pizza window under
the capped eviction; and the concrete scenario
`(true, 120, 9.99)` then `(false, 80, 0)` from the fresh state yields
`sold = 1`, `failures = 1`, `revenue = 9.99` and latency average `100`. -/
theorem pizzaPurchase_correct (s : MetricsState) (success : Bool) (latency : Nat)
    (revenue : ℚ) :
    (success = true →
      (pizzaPurchase s success latency revenue).pizzaSold = s.pizzaSold + 1 ∧
      (pizzaPurchase s success latency revenue).pizzaRevenue
        = s.pizzaRevenue + revenue ∧
      (pizzaPurchase s success latency revenue).pizzaFailures = s.pizzaFailures) ∧
    (success = false →
      (pizzaPurchase s success latency revenue).pizzaFailures = s.pizzaFailures + 1 ∧
      (pizzaPurchase s success latency revenue).pizzaSold = s.pizzaSold ∧
      (pizzaPurchase s success latency revenue).pizzaRevenue = s.pizzaRevenue) ∧
    (pizzaPurchase s success latency revenue).pizzaLatencies
      = pushCapped s.pizzaLatencies latency ∧
    (pizzaPurchase (pizzaPurchase freshMetrics true 120 9.99) false 80 0).pizzaSold
      = 1 ∧
    (pizzaPurchase (pizzaPurchase freshMetrics true 120 9.99) false 80 0).pizzaFailures
      = 1 ∧
    (pizzaPurchase (pizzaPurchase freshMetrics true 120 9.99) false 80 0).pizzaRevenue
      = 9.99 ∧
    getAverageLatency
        (pizzaPurchase (pizzaPurchase freshMetrics true 120 9.99) false 80 0).pizzaLatencies
      = 100 := by
  refine ⟨fun hs => ?_, fun hs => ?_, ?_, ?_, ?_, ?_, ?_⟩
  · subst hs; exact ⟨rfl, rfl, rfl⟩
  · subst hs; exact ⟨rfl, rfl, rfl⟩
  · cases success <;> rfl
  · rfl
  · rfl
  · norm_num [pizzaPurchase, freshMetrics]
  · rfl

/-- Witness for C7 instantiating the success and the failure branch. -/
theorem pizzaPurchase_witness :
    (pizzaPurchase freshMetrics true 120 9.99).pizzaSold = freshMetrics.pizzaSold + 1 ∧
    (pizzaPurchase freshMetrics false 80 0).pizzaFailures
      = freshMetrics.pizzaFailures + 1 :=
  ⟨((pizzaPurchase_correct freshMetrics true 120 9.99).1 rfl).1,
   (((pizzaPurchase_correct freshMetrics false 80 0).2).1 rfl).1⟩

/-- C1 counterexample: one `GET` is recorded, the collector answers
HTTP 500, and the period counters are reset anyway — `total` drops from
`1` to `0` even though delivery failed, contradicting the claim that a
non-2xx response leaves the counters alone. -/
theorem sendMetrics_failure_resets_counterexample :
    lookupCount (requestTrackerCount freshMetrics "GET" none 0).httpRequestCounts
        "total" = 1 ∧
    lookupCount (sendMetrics (requestTrackerCount freshMetrics "GET" none 0)
        "src" 0 0 1 1 0 0 (.httpError 500)).httpRequestCounts "total" = 0 := by
  exact ⟨rfl, rfl⟩

/-- C1 amended: `sendToGrafana` swallows every delivery failure inside its
own `try`/`catch` and returns normally, so `sendMetrics` calls
`resetPeriodMetrics` after EVERY cycle — the post-cycle state is the reset
of the post-sweep state regardless of the delivery outcome, and a failed
period's counter values are lost, not carried into the next cycle. -/
theorem sendMetrics_always_resets (s : MetricsState) (src : String) (now : Int)
    (loadavg : ℚ) (cpuCount : Nat) (totalMemory freeMemory : ℚ)
    (encodeNowMs : Int) (result : DeliveryResult) :
    sendMetrics s src now loadavg cpuCount totalMemory freeMemory encodeNowMs result
      = resetPeriodMetrics
          (sendMetricsSnapshot s src now loadavg cpuCount totalMemory freeMemory).1 := by
  cases result <;> rfl

/-- C8 counterexample: encoding a snapshot stamped `1000` while the
encoder's own clock reads `2000` stamps every data point with
`2000 * 10^6` nanoseconds, not the snapshot's `1000 * 10^6` — the
`timeUnixNano` comes from a fresh `Date.now()` inside `buildOtelMetrics`,
not from the snapshot's `timestamp` field. -/
theorem buildOtelMetrics_timestamp_counterexample :
    ((buildOtelMetrics sampleSnapshot 2000).metrics.map
        fun g => g.dataPoints.map fun d => d.timeUnixNano)
      = List.replicate 15 [2000000000] ∧
    sampleSnapshot.timestamp * 1000000 = 1000000000 ∧
    (2000000000 : Int) ≠ (1000000000 : Int) := by
  refine ⟨rfl, rfl, by decide⟩

/-- C8 amended: `buildOtelMetrics` emits exactly one gauge per numeric
snapshot field (`source` and `timestamp` excluded), named after the field,
with the unit given by the spec's naming convention, one data point whose
`asDouble` is the field's value — and whose `timeUnixNano` is the
encoder's clock reading at encode time converted to nanoseconds, which
need not equal the snapshot's `timestamp`. -/
theorem buildOtelMetrics_correct (m : MetricsSnapshot) (encodeNowMs : Int) :
    ((buildOtelMetrics m encodeNowMs).metrics.map fun g => (g.name, g.unit))
      = [("http_requests_total", "1"), ("http_requests_get", "1"),
         ("http_requests_post", "1"), ("http_requests_put", "1"),
         ("http_requests_delete", "1"), ("auth_attempts_successful", "1"),
         ("auth_attempts_failed", "1"), ("active_users", "1"),
         ("cpu_percent", "%"), ("memory_percent", "%"), ("pizzas_sold", "1"),
         ("pizza_failures", "1"), ("pizza_revenue", "USD"),
         ("service_latency_avg", "ms"), ("pizza_latency_avg", "ms")] ∧
    (∀ g ∈ (buildOtelMetrics m encodeNowMs).metrics,
      g.unit = specMetricUnit g.name) ∧
    ((buildOtelMetrics m encodeNowMs).metrics.map fun g => g.dataPoints)
      = (snapshotEntries m).map fun p =>
          [{ sourceAttr := m.source, asDouble := p.2,
             timeUnixNano := encodeNowMs * 1000000 }] := by
  refine ⟨rfl, fun g hg => ?_, rfl⟩
  simp only [buildOtelMetrics, snapshotEntries, List.map, List.mem_cons,
    List.not_mem_nil, or_false] at hg
  rcases hg with rfl | rfl | rfl | rfl | rfl | rfl | rfl | rfl | rfl | rfl | rfl
    | rfl | rfl | rfl | rfl <;> rfl

/-- Witness for C8 instantiating the unit property at the `cpu_percent`
gauge of the sample snapshot. -/
theorem buildOtelMetrics_correct_witness :
    ({ name := "cpu_percent",
       description := "cpu_percent metric from JWT Pizza Service",
       unit := getMetricUnit "cpu_percent",
       dataPoints := [{ sourceAttr := "test", asDouble := 50,
                        timeUnixNano := 2000000000 }] } : GaugeMetric).unit
      = specMetricUnit "cpu_percent" :=
  (buildOtelMetrics_correct sampleSnapshot 2000).2.1 _ (by decide)

/-- C9: the encoder is deterministic — under a fixed clock, equal snapshots
encode to equal payloads (in this embedding `buildOtelMetrics` is a pure
function of the snapshot and the clock, so the whole payload, timestamp
included, is reproduced identically). -/
theorem buildOtelMetrics_deterministic (m1 m2 : MetricsSnapshot)
    (encodeNowMs : Int) (h : m1 = m2) :
    buildOtelMetrics m1 encodeNowMs = buildOtelMetrics m2 encodeNowMs := by
  rw [h]

/-- Witness for C9 at the sample snapshot. -/
theorem buildOtelMetrics_deterministic_witness :
    buildOtelMetrics sampleSnapshot 2000 = buildOtelMetrics sampleSnapshot 2000 :=
  buildOtelMetrics_deterministic sampleSnapshot sampleSnapshot 2000 rfl

/-- C10: for every load average and CPU count, `getCpuUsagePercentage` is
capped at `100`, so the `cpu_percent` field of every snapshot is at most
`100`. -/
theorem cpuPercent_capped (loadavg : ℚ) (cpuCount : Nat) (s : MetricsState)
    (src : String) (now : Int) (totalMemory freeMemory : ℚ) :
    getCpuUsagePercentage loadavg cpuCount ≤ 100 ∧
    (sendMetricsSnapshot s src now loadavg cpuCount totalMemory
        freeMemory).2.cpu_percent ≤ 100 :=
  ⟨min_le_right _ _, min_le_right _ _⟩

end JwtPizza
